import Mathlib

/-!
Verification of the period-comparison and aggregation engine of the
analytics dashboard repository.

The embedded code comes from:
  * `sales_analysis.py`   — `create_sales_summary_with_comparison` (period
    resolution, `create_summary` aggregation, left merge with change
    percentages) and `create_pivot_analysis_with_comparison` (pivots with
    margins, outer merge, `Change %`, `% of Total`);
  * `dashboard.py`        — the older `create_sales_summary_with_comparison`
    variant of the previous-period rule;
  * `summary_generator.py` — `analyze_performance`;
  * `sales_visualizations.py` — `clean_dimension_values`.

Modelling conventions:
  * money and percentages are rationals (`ℚ`), unit counts are integers;
  * pandas `NaN` cells are `Option.none`; the polymorphic
    "number or the string New" change column is the inductive `CP`;
  * dates are either day ordinals (`ℤ`, via `date_to_days`) when only
    day arithmetic is involved, or `Date` (year/month/day) records when
    calendar-month arithmetic (`pd.DateOffset`) is involved;
  * `.round(n)` is numpy round-half-even at `n` decimals;
  * DataFrames keyed by a dimension are association lists; pandas sorts
    group keys alphabetically, while the embedding keeps first-occurrence
    order — no property below depends on row order.
-/

/-! ## Rounding (numpy/pandas `.round`) -/

/-- Floor of a rational, written on the numerator/denominator
representation so that it is kernel-computable. -/
def floorQ (x : ℚ) : ℤ := x.num / (x.den : ℤ)

/-- Round a rational to the nearest integer, ties to the even integer —
the rounding used by numpy/pandas `.round`. -/
def round_half_even (x : ℚ) : ℤ :=
  if x - floorQ x < 1/2 then floorQ x
  else if 1/2 < x - floorQ x then floorQ x + 1
  else if floorQ x % 2 = 0 then floorQ x else floorQ x + 1

/-- pandas `.round(1)`. -/
def round1 (x : ℚ) : ℚ := (round_half_even (10 * x) : ℚ) / 10

/-- pandas `.round(2)`. -/
def round2 (x : ℚ) : ℚ := (round_half_even (100 * x) : ℚ) / 100

/-! ## Calendar dates -/

/-- A calendar date, as pandas exposes it through `.year`, `.month`,
`.day`. -/
structure Date where
  year : ℤ
  month : ℤ
  day : ℤ
deriving DecidableEq

/-- Gregorian leap-year rule. -/
def is_leap_year (y : ℤ) : Bool :=
  (y % 4 = 0 && y % 100 ≠ 0) || y % 400 = 0

/-- Number of days of month `m` of year `y`. -/
def days_in_month (y m : ℤ) : ℤ :=
  if m = 2 then (if is_leap_year y then 29 else 28)
  else if m = 4 ∨ m = 6 ∨ m = 9 ∨ m = 11 then 30
  else 31

/-- Subtraction of `n` calendar months, with the semantics of
`timestamp - pd.DateOffset(months=n)`: the month index moves back by
`n` and the day-of-month is kept, clamped to the length of the target
month. -/
def sub_months (d : Date) (n : ℤ) : Date :=
  let t : ℤ := d.year * 12 + (d.month - 1) - n
  let y : ℤ := t.fdiv 12
  let m : ℤ := t - y * 12 + 1
  { year := y, month := m, day := min d.day (days_in_month y m) }

/-- Day ordinal of a civil date (days since 1970-01-01, the standard
days-from-civil computation); used to talk about `pd.Timedelta(days=k)`
arithmetic on concrete dates.  All intermediate quantities are
non-negative for the years used here. -/
def date_to_days (y m d : ℤ) : ℤ :=
  let y2 : ℤ := if m ≤ 2 then y - 1 else y
  let era : ℤ := (if 0 ≤ y2 then y2 else y2 - 399) / 400
  let yoe : ℤ := y2 - era * 400
  let mp : ℤ := (m + 9) % 12
  let doy : ℤ := (153 * mp + 2) / 5 + d - 1
  let doe : ℤ := yoe * 365 + yoe / 4 - yoe / 100 + doy
  era * 146097 + doe - 719468

/-! ## Previous-period resolution

Each source file carries its own copy of the rule; the three variants
are embedded separately.  Dates for the `Weekly`/`Custom` (day-based)
branches are day ordinals. -/

namespace SalesAnalysis

/-- Previous-period rule of `sales_analysis.py`
(`create_sales_summary_with_comparison` and
`create_pivot_analysis_with_comparison`), non-`Monthly` branch:
for a single-day range the previous single day, otherwise
`[start-(len+1), start-1]` with `len = (end-start).days`. -/
def resolve_previous_period_days (s e : ℤ) : ℤ × ℤ :=
  if s = e then (s - 1, s - 1)
  else (s - ((e - s) + 1), s - 1)

/-- The `months_diff` quantity of the `Monthly` branch:
`(end.year-start.year)*12 + end.month - start.month + 1`. -/
def months_diff (s e : Date) : ℤ :=
  (e.year - s.year) * 12 + e.month - s.month + 1

/-- Previous-period rule of `sales_analysis.py`, `Monthly` branch:
for a single-day range the day one month earlier, otherwise both ends
shifted back by `months_diff` calendar months. -/
def resolve_previous_period_monthly (s e : Date) : Date × Date :=
  if s = e then (sub_months s 1, sub_months s 1)
  else (sub_months s (months_diff s e), sub_months e (months_diff s e))

end SalesAnalysis

namespace SummaryGen

/-- Previous-period rule of `summary_generator.py` (`analyze_performance`),
non-`Monthly` branch: a flat 7-day shift when the range spans exactly
`(end-start).days == 6`, otherwise `[start-(len+1), start-1]`. -/
def resolve_previous_days (s e : ℤ) : ℤ × ℤ :=
  if e - s = 6 then (s - 7, e - 7)
  else (s - ((e - s) + 1), s - 1)

end SummaryGen

namespace Dashboard

/-- Previous-period rule of `dashboard.py`
(`create_sales_summary_with_comparison`): a flat 7-day shift when
`(end-start).days == 6`, otherwise `[start - len, start - 1]` — note
`len`, not `len + 1`, unlike the other two variants. -/
def resolve_previous_days (s e : ℤ) : ℤ × ℤ :=
  if e - s = 6 then (s - 7, e - 7)
  else (s - (e - s), s - 1)

end Dashboard

/-! ## The polymorphic change column -/

/-- Value of a pandas change-percent cell: a number, the string
sentinel `"New"`, or a NaN/None left in place (`undefined`).  The
source columns are polymorphic float/string columns; `undefined`
represents a NaN that survives to the display layer. -/
inductive CP where
  | num (q : ℚ)
  | new
  | undefined
deriving DecidableEq

/-! ## Dimensional aggregation (`create_summary` in `sales_analysis.py`) -/

/-- One row of the per-dimension summary DataFrame produced by
`create_summary`: revenue (`Sales Dollars`), units (`Units Sold`,
cast to int), `Average Price`, `Revenue %`, `Units %`.  `none` models
the NaN produced by a zero denominator. -/
structure SummaryRow where
  key : String
  revenue : ℚ
  units : ℤ
  avg_price : Option ℚ
  revenue_pct : Option ℚ
  units_pct : Option ℚ
deriving DecidableEq

/-- pandas `groupby(dimension).agg(sum, sum)` over rows of
`(key, Sales Dollars, Units Sold)`: one output row per distinct key
with both measures summed.  pandas orders group keys alphabetically;
the embedding keeps first-occurrence order, which no verified
property depends on. -/
def group_rows : List (String × ℚ × ℤ) → List (String × ℚ × ℤ)
  | [] => []
  | (k, v, u) :: rest =>
      (k, v + ((rest.filter (fun r => decide (r.1 = k))).map (fun r => r.2.1)).sum,
          u + ((rest.filter (fun r => decide (r.1 = k))).map (fun r => r.2.2)).sum) ::
        group_rows (rest.filter (fun r => !(decide (r.1 = k))))
termination_by rows => rows.length
decreasing_by
  simp only [List.length_cons]
  exact Nat.lt_succ_of_le (List.length_filter_le _ _)

/-- Total of the `Sales Dollars` column of the grouped summary — the
`total_sales = summary['Sales Dollars'].sum()` of the source. -/
def summary_total_revenue (rows : List (String × ℚ × ℤ)) : ℚ :=
  ((group_rows rows).map (fun r => r.2.1)).sum

/-- Total of the `Units Sold` column of the grouped summary. -/
def summary_total_units (rows : List (String × ℚ × ℤ)) : ℤ :=
  ((group_rows rows).map (fun r => r.2.2)).sum

/-- The `create_summary` helper of
`create_sales_summary_with_comparison`: group by the dimension, sum
both measures, then derive `Average Price` (NaN when units is 0,
via `.replace(0, np.nan)`), `Revenue %` and `Units %` (each measure
divided by the column total, times 100, rounded to 1 decimal; NaN
when the total is 0). -/
def create_summary (rows : List (String × ℚ × ℤ)) : List SummaryRow :=
  (group_rows rows).map (fun r =>
    let (k, v, u) := r
    { key := k
      revenue := v
      units := u
      avg_price :=
        if u = 0 then none
        else some (round2 (v / (u : ℚ)))
      revenue_pct :=
        if summary_total_revenue rows = 0 then none
        else some (round1 (v / summary_total_revenue rows * 100))
      units_pct :=
        if summary_total_units rows = 0 then none
        else some (round1 ((u : ℚ) / (summary_total_units rows : ℚ) * 100)) })

/-- Change-percent of a merged row in
`create_sales_summary_with_comparison`:
`(cur - prev) / prev.replace(0, nan) * 100`, rounded to 1 decimal,
with `±inf` replaced by NaN and NaN filled with the `"New"` sentinel.
An absent previous row (left-merge miss) is NaN throughout, so it is
also filled with `"New"`; a zero baseline divides by NaN, so likewise.
No NaN survives the `fillna`, so `CP.undefined` is never produced. -/
def change_pct_merged (cur : ℚ) : Option ℚ → CP
  | none => CP.new
  | some p => if p = 0 then CP.new else CP.num (round1 ((cur - p) / p * 100))

/-- One row of the merged current-vs-previous summary.  The previous
side keeps its measures (`Sales Dollars_prev`, `Units Sold_prev`);
`none` models the NaN of a left-merge miss.  The derived previous
columns (`Average Price_prev`, percentage columns) are carried along
by the source merge but read by nothing verified here, so they are
not repeated. -/
structure ComparisonRow where
  current : SummaryRow
  prev_revenue : Option ℚ
  prev_units : Option ℤ
  revenue_change : CP
  units_change : CP
deriving DecidableEq

/-- The merge step of `create_sales_summary_with_comparison`:
`current_summary.merge(previous_summary, on=dimension, how='left')`
followed by the change-percent computation.  A left merge keeps
exactly the keys of the current summary; the subsequent
`sort_values('Sales Dollars', ascending=False)` only permutes rows
and is not modelled. -/
def merge_summaries (cur prev : List SummaryRow) : List ComparisonRow :=
  cur.map (fun c =>
    let p := prev.find? (fun r => decide (r.key = c.key))
    { current := c
      prev_revenue := p.map (fun r => r.revenue)
      prev_units := p.map (fun r => r.units)
      revenue_change := change_pct_merged c.revenue (p.map (fun r => r.revenue))
      units_change := change_pct_merged (c.units : ℚ) (p.map (fun r => (r.units : ℚ))) })

/-! ## Pivot analysis (`create_pivot_analysis_with_comparison`) -/

/-- Group-and-sum for a single measure, as `pd.pivot_table(...,
aggfunc='sum')` produces per key. -/
def group_sum : List (String × ℚ) → List (String × ℚ)
  | [] => []
  | (k, v) :: rest =>
      (k, v + ((rest.filter (fun r => decide (r.1 = k))).map Prod.snd).sum) ::
        group_sum (rest.filter (fun r => !(decide (r.1 = k))))
termination_by rows => rows.length
decreasing_by
  simp only [List.length_cons]
  exact Nat.lt_succ_of_le (List.length_filter_le _ _)

/-- Grand total of a measure over a period's rows — the value the
pivot's margins row carries. -/
def grand_total (rows : List (String × ℚ)) : ℚ := (rows.map Prod.snd).sum

/-- `pd.pivot_table(..., aggfunc='sum', margins=True,
margins_name='Total')`: the per-key sums plus a final `Total` row
holding the un-grouped total. -/
def pivot_with_margins (rows : List (String × ℚ)) : List (String × ℚ) :=
  group_sum rows ++ [("Total", grand_total rows)]

/-- First value associated to `k`, with a default — pandas lookup
after `.fillna(d)`. -/
def lookupD (rows : List (String × ℚ)) (k : String) (d : ℚ) : ℚ :=
  match rows.find? (fun r => decide (r.1 = k)) with
  | none => d
  | some r => r.2

/-- The pivot merge: `current_pivot.merge(previous_pivot, on=...,
how='outer', ...).fillna(0)` — every key of either side appears once,
and a key missing from one side gets 0 for that side's measure. -/
def outer_merge_fill0 (cur prev : List (String × ℚ)) : List (String × ℚ × ℚ) :=
  cur.map (fun r => (r.1, r.2, lookupD prev r.1 0)) ++
    (prev.filter (fun q => !(decide (q.1 ∈ cur.map Prod.fst)))).map
      (fun q => (q.1, 0, q.2))

/-- One displayed row of the pivot comparison. -/
structure PivotRow where
  key : String
  cur : ℚ
  prev : ℚ
  change : CP
  pct_of_total : Option ℚ
deriving DecidableEq

/-- The pivot comparison of `create_pivot_analysis_with_comparison`:
both periods are pivoted with margins, outer-merged with zero fill,
then `Change %` is `np.where(prev == 0, 'New', round((cur-prev)/prev*100, 1))`
and `% of Total` is `round(cur / current_total * 100, 1)` where
`current_total = merged_pivot[metric].sum()` — the sum of the merged
current column, margins row included.  `none` models the degenerate
NaN/inf cells when that sum is 0.  The final reordering that moves the
`Total` row last only permutes rows and is not modelled. -/
def pivot_comparison (cur_rows prev_rows : List (String × ℚ)) : List PivotRow :=
  let merged := outer_merge_fill0 (pivot_with_margins cur_rows) (pivot_with_margins prev_rows)
  let current_total := (merged.map (fun r => r.2.1)).sum
  merged.map (fun r =>
    let (k, c, p) := r
    { key := k
      cur := c
      prev := p
      change :=
        if p = 0 then CP.new
        else CP.num (round1 ((c - p) / p * 100))
      pct_of_total :=
        if current_total = 0 then none
        else some (round1 (c / current_total * 100)) })

/-! ## `clean_dimension_values` (`sales_visualizations.py`) -/

/-- A sales record as the cleaned table carries it.  Columns other
than `Color` and `Size` are included to state that cleaning leaves
them untouched. -/
structure SalesRecord where
  retailer : String
  product_title : String
  color : String
  size : String
  units_sold : ℤ
  sales_dollars : ℚ
deriving DecidableEq

/-- The replacement list of `clean_dimension_values`. -/
def replace_values : List String := ["0", "0.0", "nan", "None", "none", "null", "", " "]

/-- Python `x.strip() == ''` on an already-string cell: every
character is whitespace. -/
def is_blank (s : String) : Bool := s.data.all Char.isWhitespace

/-- Per-cell cleaning of `clean_dimension_values`: `.replace` of the
listed tokens with `N/A`, then the whitespace-only sweep
(`'N/A' if x.strip() == '' else x`). -/
def clean_value (s : String) : String :=
  let s1 := if s ∈ replace_values then "N/A" else s
  if is_blank s1 then "N/A" else s1

/-- The condition the specification describes: the cell is one of the
null-like tokens, or empty/whitespace-only.  Used to compare the code
against the claimed description of it. -/
def clean_value_spec (s : String) : String :=
  if s ∈ ["0", "0.0", "nan", "None", "none", "null"] ∨ is_blank s then "N/A" else s

/-- `clean_dimension_values(data, dimension)`: for `Color` or `Size`
the column of that name is cleaned cell-wise (after `astype(str)`,
identity here since cells are already strings); for any other
dimension name the table is returned unchanged. -/
def clean_dimension_values (data : List SalesRecord) (dimension : String) : List SalesRecord :=
  if dimension = "Color" then
    data.map (fun r => { r with color := clean_value r.color })
  else if dimension = "Size" then
    data.map (fun r => { r with size := clean_value r.size })
  else data

/-! ## `analyze_performance` (`summary_generator.py`) -/

namespace SummaryGen

/-- One row of `perf_df`: a retailer with its current-period and
previous-period `Sales Dollars` sums (absent keys filled with 0 by
`fillna(0)`). -/
structure Perf where
  retailer : String
  cur : ℚ
  prev : ℚ
deriving DecidableEq

/-- First-occurrence deduplication of a key list.  The source takes a
Python set union (`set(cur) | set(prev)`), whose iteration order is
arbitrary; no verified property depends on the order. -/
def dedup_keys : List String → List String
  | [] => []
  | k :: ks => k :: dedup_keys (ks.filter (fun j => !(decide (j = k))))
termination_by l => l.length
decreasing_by
  simp only [List.length_cons]
  exact Nat.lt_succ_of_le (List.length_filter_le _ _)

/-- Sum of the sales of retailer `k` in a period's rows; 0 when the
retailer is absent, matching `fillna(0)` after the groupby. -/
def sum_for (rows : List (String × ℚ)) (k : String) : ℚ :=
  ((rows.filter (fun r => decide (r.1 = k))).map Prod.snd).sum

/-- Construction of `perf_df`: all retailers of either period with
their per-period sales sums. -/
def perf_table (cur prev : List (String × ℚ)) : List Perf :=
  (dedup_keys ((cur ++ prev).map Prod.fst)).map (fun k =>
    { retailer := k, cur := sum_for cur k, prev := sum_for prev k })

/-- Rounded change percent of an existing retailer (`Change %`). -/
def change_pct (p : Perf) : ℚ := round1 ((p.cur - p.prev) / p.prev * 100)

/-- Narrative line for a significantly increasing retailer.  The
dollar formatting and the product-level drill-down text of the source
are presentation detail read by no verified property and are
abstracted to the retailer name. -/
def increase_line (p : Perf) : String :=
  "• " ++ p.retailer ++ " was up vs the previous period.\n"

/-- Narrative line for a new retailer (same abstraction). -/
def new_line (p : Perf) : String :=
  "• " ++ p.retailer ++ " was new this period.\n"

/-- Narrative line for a significantly decreasing retailer (same
abstraction). -/
def decrease_line (p : Perf) : String :=
  "• " ++ p.retailer ++ " was down vs the previous period.\n"

/-- Narrative line for a lost retailer (same abstraction). -/
def lost_line (p : Perf) : String :=
  "• " ++ p.retailer ++ " had no sales this period.\n"

/-- Early-return message when no retailer reaches the $1,000 floor. -/
def threshold_message : String :=
  "No retailers met the minimum sales threshold of $1,000 in either period."

/-- The message the source intends to return when nothing significant
happened (its final `return` before joining the lines). -/
def no_changes_message : String :=
  "No retailers with ≥$1,000 in sales showed significant changes (≥10%) in revenue compared to the previous period."

/-- The Python exception raised by `new_retailers.size` once
`new_retailers` has been rebound to a plain list. -/
def attribute_error : String :=
  "AttributeError: list object has no attribute size"

/-- The `analyze_performance` pipeline of `summary_generator.py`,
from the two per-period `(Retailer, Sales Dollars)` row sets to the
returned text, in an `Except` that models a raised Python exception.

Control flow follows the source: build `perf_df`, keep retailers with
at least $1,000 in either period, early-return the threshold message
when none remain; classify new / lost / existing retailers, compute
`Change %` for existing ones, keep the significant (≥10%) movers and
split them into increases and decreases; build the narrative lines;
finally evaluate `increases.empty and new_retailers.size == 0 and ...`.
Python `and` short-circuits, so when `increases` is non-empty the
joined lines are returned — but when `increases` is empty the second
conjunct evaluates `new_retailers.size` on a plain Python list
(`new_retailers = list(new_retailers)` rebound it earlier) and raises
`AttributeError`, so the no-significant-changes return is unreachable.
The conditional prepending of the two block headers and the
descending-by-sales sort of each block only affect the joined text of
the non-error case and are not modelled. -/
def analyze_performance (cur prev : List (String × ℚ)) : Except String String :=
  let perf := (perf_table cur prev).filter
    (fun p => decide (1000 ≤ p.cur) || decide (1000 ≤ p.prev))
  if perf.isEmpty then Except.ok threshold_message
  else
    let new_retailers := perf.filter (fun p => decide (0 < p.cur) && decide (p.prev = 0))
    let lost_retailers := perf.filter (fun p => decide (p.cur = 0) && decide (0 < p.prev))
    let existing := perf.filter (fun p => decide (0 < p.cur) && decide (0 < p.prev))
    let significant := existing.filter (fun p => decide (10 ≤ |change_pct p|))
    let increases := significant.filter (fun p => decide (0 < change_pct p))
    let decreases := significant.filter (fun p => decide (change_pct p < 0))
    let lines :=
      increases.map increase_line ++ new_retailers.map new_line ++
        decreases.map decrease_line ++ lost_retailers.map lost_line
    if increases.isEmpty then Except.error attribute_error
    else Except.ok (String.join lines)

end SummaryGen

/-! ## Concrete sample data used by witnesses and counterexamples -/

/-- A current-period summary row: retailer `A`, revenue 500. -/
def row_A500 : SummaryRow :=
  { key := "A", revenue := 500, units := 5, avg_price := some 100,
    revenue_pct := some 100, units_pct := some 100 }

/-- A previous-period summary row: retailer `B`, revenue 300. -/
def row_B300 : SummaryRow :=
  { key := "B", revenue := 300, units := 3, avg_price := some 100,
    revenue_pct := some 100, units_pct := some 100 }

/-- A summary row with zero revenue and zero units. -/
def row_A0 : SummaryRow :=
  { key := "A", revenue := 0, units := 0, avg_price := none,
    revenue_pct := none, units_pct := none }

/-- The merged comparison row produced for `row_A500` when the
previous summary has no entry for key `A`. -/
def merged_row_A : ComparisonRow :=
  { current := row_A500, prev_revenue := none, prev_units := none,
    revenue_change := CP.new, units_change := CP.new }

/-- The merged comparison row produced for `row_A0` against a
previous summary containing `row_A0`: both measures zero. -/
def merged_row_A0 : ComparisonRow :=
  { current := row_A0, prev_revenue := some 0, prev_units := some 0,
    revenue_change := CP.new, units_change := CP.new }

/-- Six retailers with one dollar and one unit each. -/
def six_equal_rows : List (String × ℚ × ℤ) :=
  [("A",1,1),("B",1,1),("C",1,1),("D",1,1),("E",1,1),("F",1,1)]

/-- A sales record with ordinary values in every column. -/
def sample_record : SalesRecord :=
  { retailer := "X", product_title := "P", color := "red", size := "M",
    units_sold := 1, sales_dollars := 10 }

/-! ## Helper lemmas -/

/-- The computable floor agrees with the mathematical floor. -/
theorem floorQ_eq (x : ℚ) : floorQ x = ⌊x⌋ := Rat.floor_def.symm

/-- Restatement of `round_half_even` through the mathematical floor,
used to evaluate roundings with `norm_num`. -/
theorem round_half_even_eq (x : ℚ) :
    round_half_even x =
      if x - ⌊x⌋ < 1/2 then ⌊x⌋
      else if 1/2 < x - ⌊x⌋ then ⌊x⌋ + 1
      else if ⌊x⌋ % 2 = 0 then ⌊x⌋ else ⌊x⌋ + 1 := by
  rw [round_half_even, floorQ_eq]

/-- Rounding to the nearest integer moves a value by at most 1/2. -/
theorem abs_round_half_even_sub_le (x : ℚ) : |(round_half_even x : ℚ) - x| ≤ 1/2 := by
  rw [round_half_even_eq]
  have h0 : (0:ℚ) ≤ x - ⌊x⌋ := by
    have := Int.floor_le x; linarith
  have h1 : x - ⌊x⌋ < 1 := by
    have := Int.lt_floor_add_one x; linarith
  split_ifs with ha hb hc
  · rw [abs_sub_comm, abs_of_nonneg (by linarith)]; linarith
  · push_cast
    rw [abs_of_nonneg (by linarith)]; linarith
  · rw [abs_sub_comm, abs_of_nonneg (by linarith)]; linarith
  · push_cast
    rw [abs_of_nonneg (by linarith)]; linarith

/-- Rounding to one decimal moves a value by at most 1/20. -/
theorem abs_round1_sub_le (x : ℚ) : |round1 x - x| ≤ 1/20 := by
  have h := abs_round_half_even_sub_le (10 * x)
  rw [round1]
  rw [show (round_half_even (10*x) : ℚ)/10 - x = ((round_half_even (10*x) : ℚ) - 10*x)/10
    by ring]
  rw [abs_div]
  rw [abs_of_nonneg (by norm_num : (0:ℚ) ≤ 10)]
  linarith

/-- Summing `n` once-rounded values moves the sum by at most `n`
twentieths. -/
theorem sum_map_round1_sub_le (L : List ℚ) (f : ℚ → ℚ) :
    |(L.map (fun x => round1 (f x))).sum - (L.map f).sum| ≤ L.length * (1/20) := by
  induction L with
  | nil => simp
  | cons a t ih =>
    simp only [List.map_cons, List.sum_cons, List.length_cons]
    have habs := abs_round1_sub_le (f a)
    calc |round1 (f a) + (t.map (fun x => round1 (f x))).sum - (f a + (t.map f).sum)|
        = |(round1 (f a) - f a) + ((t.map (fun x => round1 (f x))).sum - (t.map f).sum)| := by
          ring_nf
      _ ≤ |round1 (f a) - f a| + |(t.map (fun x => round1 (f x))).sum - (t.map f).sum| :=
          abs_add _ _
      _ ≤ 1/20 + t.length * (1/20) := add_le_add habs ih
      _ = ((t.length + 1 : ℕ) : ℚ) * (1/20) := by push_cast; ring

/-- Sums distribute over a constant factor. -/
theorem sum_map_mul_const (L : List ℚ) (c : ℚ) : (L.map (fun x => x * c)).sum = L.sum * c := by
  induction L with
  | nil => simp
  | cons a t ih => simp [List.map_cons, List.sum_cons, ih, add_mul]

/-- The unrounded shares of a nonzero total sum to exactly 100. -/
theorem sum_map_pct (L : List ℚ) (h : L.sum ≠ 0) :
    (L.map (fun x => x / L.sum * 100)).sum = 100 := by
  have he : (fun x => x / L.sum * 100) = fun x => x * (100 / L.sum) := by
    funext x; ring
  rw [he, sum_map_mul_const]
  field_simp

/-- Percentage-closure bound for once-rounded shares of a nonzero
total. -/
theorem round1_pct_closure (L : List ℚ) (h : L.sum ≠ 0) :
    |(L.map (fun x => round1 (x / L.sum * 100))).sum - 100| ≤ L.length * (1/20) := by
  have hb := sum_map_round1_sub_le L (fun x => x / L.sum * 100)
  rw [sum_map_pct L h] at hb
  exact hb

/-- Every merged comparison row comes from a current summary row, and
its previous measures and change column are determined by the lookup
into the previous summary. -/
theorem merge_summaries_shape (curS prevS : List SummaryRow) (r : ComparisonRow)
    (hr : r ∈ merge_summaries curS prevS) :
    r.current ∈ curS ∧
    r.prev_revenue = (prevS.find? (fun q => decide (q.key = r.current.key))).map
      (fun q => q.revenue) ∧
    r.revenue_change = change_pct_merged r.current.revenue r.prev_revenue := by
  rw [merge_summaries] at hr
  obtain ⟨c, hc, rfl⟩ := List.mem_map.mp hr
  exact ⟨hc, rfl, rfl⟩

/-- Key lookup in a key-value list fails when the key is absent. -/
theorem lookup_pair_eq_none (l : List (String × ℚ)) (k : String)
    (h : k ∉ l.map Prod.fst) :
    l.find? (fun r => decide (r.1 = k)) = none := by
  rw [List.find?_eq_none]
  intro x hx
  simp only [decide_eq_true_eq]
  intro hk
  exact h (List.mem_map.mpr ⟨x, hx, hk⟩)

/-- Key lookup in a summary fails when the key is absent. -/
theorem lookup_row_eq_none (l : List SummaryRow) (k : String)
    (h : k ∉ l.map (fun q => q.key)) :
    l.find? (fun q => decide (q.key = k)) = none := by
  rw [List.find?_eq_none]
  intro x hx
  simp only [decide_eq_true_eq]
  intro hk
  exact h (List.mem_map.mpr ⟨x, hx, hk⟩)

/-- The outer merge carries exactly the keys of the two sides. -/
theorem outer_merge_keys (cur prev : List (String × ℚ)) (k : String) :
    (k ∈ (outer_merge_fill0 cur prev).map (fun r => r.1)) ↔
      (k ∈ cur.map Prod.fst ∨ k ∈ prev.map Prod.fst) := by
  simp only [outer_merge_fill0, List.map_append, List.mem_append, List.map_map,
    List.mem_map, Function.comp, List.mem_filter]
  constructor
  · rintro (⟨r, hr, rfl⟩ | ⟨q, ⟨hq, -⟩, rfl⟩)
    · exact Or.inl ⟨r, hr, rfl⟩
    · exact Or.inr ⟨q, hq, rfl⟩
  · rintro (⟨r, hr, rfl⟩ | ⟨q, hq, rfl⟩)
    · exact Or.inl ⟨r, hr, rfl⟩
    · by_cases hc : q.1 ∈ cur.map Prod.fst
      · obtain ⟨r, hr, hrk⟩ := List.mem_map.mp hc
        exact Or.inl ⟨r, hr, hrk⟩
      · refine Or.inr ⟨q, ⟨hq, ?_⟩, rfl⟩
        rw [Bool.not_eq_true', decide_eq_false_iff_not]
        intro h2
        obtain ⟨a, ha, hak⟩ := h2
        exact hc (List.mem_map.mpr ⟨a, ha, hak⟩)

/-- In the outer merge, a key missing from one side carries 0 for
that side's measure. -/
theorem outer_merge_missing_side (cur prev : List (String × ℚ)) (e : String × ℚ × ℚ)
    (he : e ∈ outer_merge_fill0 cur prev) :
    (e.1 ∉ prev.map Prod.fst → e.2.2 = 0) ∧ (e.1 ∉ cur.map Prod.fst → e.2.1 = 0) := by
  rw [outer_merge_fill0] at he
  rcases List.mem_append.mp he with hl | hr
  · obtain ⟨r, hr, rfl⟩ := List.mem_map.mp hl
    constructor
    · intro hnp
      simp only [lookupD, lookup_pair_eq_none prev r.1 hnp]
    · intro hnc
      exact absurd (List.mem_map.mpr ⟨r, hr, rfl⟩) hnc
  · obtain ⟨q, hq, rfl⟩ := List.mem_map.mp hr
    rw [List.mem_filter] at hq
    constructor
    · intro hnp
      exact absurd (List.mem_map.mpr ⟨q, hq.1, rfl⟩) hnp
    · intro _
      rfl

/-- The left merge of the dimension summaries keeps exactly the keys
of the current summary, in order. -/
theorem merge_keys_eq (curS prevS : List SummaryRow) :
    (merge_summaries curS prevS).map (fun r => r.current.key) = curS.map (fun r => r.key) := by
  rw [merge_summaries, List.map_map]
  rfl

/-- The per-cell cleaning of `clean_dimension_values` does exactly
what the specification describes: the six null-like tokens and the
empty/whitespace-only strings become `N/A`, everything else is kept. -/
theorem clean_value_eq_spec (s : String) : clean_value s = clean_value_spec s := by
  by_cases h : s ∈ replace_values
  · have h8 : s = "0" ∨ s = "0.0" ∨ s = "nan" ∨ s = "None" ∨ s = "none" ∨ s = "null"
        ∨ s = "" ∨ s = " " := by
      simpa [replace_values] using h
    rcases h8 with rfl|rfl|rfl|rfl|rfl|rfl|rfl|rfl <;> decide
  · have h6 : ¬ (s ∈ ["0","0.0","nan","None","none","null"]) := by
      intro h6
      apply h
      simp only [replace_values, List.mem_cons] at h6 ⊢
      tauto
    simp only [clean_value, clean_value_spec, if_neg h]
    cases hb : is_blank s <;> simp [hb, h6]

/-! ## Claim theorems -/

/-- C1 counterexample: the `dashboard.py` variant, on the 2-day range
`[0, 1]`, returns the previous period `[-1, -1]`, which spans 1 day
while the current range spans 2 — so the claim that every comparison
function preserves the day count fails. -/
theorem C1_dashboard_counterexample :
    Dashboard.resolve_previous_days 0 1 = (-1, -1) ∧
    ¬ ((Dashboard.resolve_previous_days 0 1).2 - (Dashboard.resolve_previous_days 0 1).1 + 1
        = 1 - 0 + 1) := by
  decide

/-- C1 (amended): for every range `[s, e]` with `s ≤ e`, every variant
ends its previous period at `s - 1` (immediately adjacent, no gap, no
overlap).  The `sales_analysis.py` and `summary_generator.py` variants
preserve the day span `e - s`; the `dashboard.py` variant preserves it
only for 7-day ranges and otherwise returns a span one day shorter. -/
theorem C1_previous_period_amended (s e : ℤ) (h : s ≤ e) :
    ((SalesAnalysis.resolve_previous_period_days s e).2 = s - 1 ∧
      (SalesAnalysis.resolve_previous_period_days s e).2
        - (SalesAnalysis.resolve_previous_period_days s e).1 = e - s) ∧
    ((SummaryGen.resolve_previous_days s e).2 = s - 1 ∧
      (SummaryGen.resolve_previous_days s e).2
        - (SummaryGen.resolve_previous_days s e).1 = e - s) ∧
    ((Dashboard.resolve_previous_days s e).2 = s - 1 ∧
      (Dashboard.resolve_previous_days s e).2 - (Dashboard.resolve_previous_days s e).1
        = (if e - s = 6 then e - s else e - s - 1)) := by
  unfold SalesAnalysis.resolve_previous_period_days SummaryGen.resolve_previous_days
    Dashboard.resolve_previous_days
  split_ifs <;> simp <;> omega

/-- Witness for C1: the amended statement instantiated at the 2-day
range `[0, 1]`. -/
theorem C1_previous_period_witness :
    (0:ℤ) ≤ 1 ∧
    (Dashboard.resolve_previous_days 0 1).2 - (Dashboard.resolve_previous_days 0 1).1
      = (if (1:ℤ) - 0 = 6 then 1 - 0 else 1 - 0 - 1) :=
  ⟨by decide, (C1_previous_period_amended 0 1 (by decide)).2.2.2⟩

/-- C2 counterexample: the Monthly previous period of
`{2024-04-01, 2024-06-30}` is not `{2024-01-01, 2024-03-31}` —
`pd.DateOffset(months=3)` keeps the day-of-month, so the end lands on
March 30, not on the last day of March. -/
theorem C2_monthly_counterexample :
    SalesAnalysis.resolve_previous_period_monthly ⟨2024,4,1⟩ ⟨2024,6,30⟩
      ≠ (⟨2024,1,1⟩, ⟨2024,3,31⟩) := by
  decide

/-- C2 (amended): the Monthly previous period of
`{2024-04-01, 2024-06-30}` is exactly `{2024-01-01, 2024-03-30}` —
both ends shifted back 3 calendar months with day-of-month
preserved. -/
theorem C2_monthly_amended :
    SalesAnalysis.resolve_previous_period_monthly ⟨2024,4,1⟩ ⟨2024,6,30⟩
      = (⟨2024,1,1⟩, ⟨2024,3,30⟩) := by
  decide

/-- C3 code bug, evaluated at the failing input with current rows
`{A: 100}` and previous rows `{A: 80}`: the grand total of the current
period is 100 and the claimed formula gives `round1(100/100*100) = 100`
percent for both row `A` and the `Total` row, but the code computes 50
for both, because its denominator `merged_pivot[metric].sum()` also
sums the margins `Total` row and is therefore twice the grand total. -/
theorem C3_pct_of_total_bug :
    (pivot_comparison [("A",100)] [("A",80)]).map (fun r => (r.key, r.pct_of_total))
      = [("A", some 50), ("Total", some 50)] ∧
    grand_total [("A",100)] = 100 ∧
    round1 (100 / grand_total [("A",100)] * 100) = 100 ∧
    some (50:ℚ) ≠ some (100:ℚ) := by
  have h50 : round1 50 = 50 := by rw [round1, round_half_even_eq]; norm_num
  have h100 : round1 100 = 100 := by rw [round1, round_half_even_eq]; norm_num
  refine ⟨?_, by norm_num [grand_total], ?_, by norm_num⟩
  · norm_num [pivot_comparison, pivot_with_margins, group_sum.eq_def, grand_total,
      outer_merge_fill0, lookupD, List.filter, List.find?, h50]
  · norm_num [grand_total, h100]

/-- C4 code bug, evaluated at the failing input where retailer `R`
has exactly 1000 in both periods: `R` passes the $1,000 floor, is not
classified as increase, decrease, new, or lost, and the claimed fixed
no-significant-changes message should be returned — but the source
evaluates `new_retailers.size` on a plain Python list at that point
and raises `AttributeError` instead. -/
theorem C4_no_changes_path_bug :
    ((SummaryGen.perf_table [("R",1000)] [("R",1000)]).filter
        (fun p => decide (1000 ≤ p.cur) || decide (1000 ≤ p.prev)))
      = [{ retailer := "R", cur := 1000, prev := 1000 }] ∧
    SummaryGen.analyze_performance [("R",1000)] [("R",1000)]
      = Except.error SummaryGen.attribute_error ∧
    Except.error SummaryGen.attribute_error
      ≠ (Except.ok SummaryGen.no_changes_message : Except String String) := by
  have h0 : round1 0 = 0 := by rw [round1, round_half_even_eq]; norm_num
  refine ⟨?_, ?_, by simp⟩
  · norm_num [SummaryGen.perf_table, SummaryGen.dedup_keys.eq_def, SummaryGen.sum_for,
      List.filter]
  · norm_num [SummaryGen.analyze_performance, SummaryGen.perf_table,
      SummaryGen.dedup_keys.eq_def, SummaryGen.sum_for, SummaryGen.change_pct,
      List.filter, h0]

/-- C5 counterexample: merging a current summary `{A: 500}` with a
previous summary `{B: 300}` in `create_sales_summary_with_comparison`
drops key `B` entirely (the merge is `how='left'`, not a full outer
join), and key `A` gets NaN — not zero — for the missing previous
revenue. -/
theorem C5_merge_counterexample :
    ("B" ∈ [row_B300].map (fun r => r.key)) ∧
    ¬ ("B" ∈ ((merge_summaries [row_A500] [row_B300]).map (fun r => r.current.key))) ∧
    ((merge_summaries [row_A500] [row_B300]).map (fun r => r.prev_revenue)) = [none] ∧
    (none : Option ℚ) ≠ some 0 := by
  refine ⟨by simp [row_B300], ?_, ?_, by simp⟩ <;>
    simp [merge_summaries, List.find?, row_A500, row_B300]

/-- C5 (amended): the pivot merge is a genuine full outer join — its
keys are exactly the union of both sides' keys and a key missing from
one side carries 0 for that side's measure — while the
dimension-summary merge is a left join: its keys are exactly the
current summary's keys, and a key absent from the previous summary
keeps NaN (not zero) as its previous revenue. -/
theorem C5_merge_amended (cur prev : List (String × ℚ)) (curS prevS : List SummaryRow) :
    (∀ k : String, (k ∈ (outer_merge_fill0 cur prev).map (fun r => r.1)) ↔
      (k ∈ cur.map Prod.fst ∨ k ∈ prev.map Prod.fst)) ∧
    (∀ e ∈ outer_merge_fill0 cur prev,
      (e.1 ∉ prev.map Prod.fst → e.2.2 = 0) ∧ (e.1 ∉ cur.map Prod.fst → e.2.1 = 0)) ∧
    ((merge_summaries curS prevS).map (fun r => r.current.key)
      = curS.map (fun r => r.key)) ∧
    (∀ r ∈ merge_summaries curS prevS,
      r.current.key ∉ prevS.map (fun q => q.key) → r.prev_revenue = none) := by
  refine ⟨outer_merge_keys cur prev, fun e he => outer_merge_missing_side cur prev e he,
    merge_keys_eq curS prevS, fun r hr hk => ?_⟩
  obtain ⟨-, hpr, -⟩ := merge_summaries_shape curS prevS r hr
  rw [hpr, lookup_row_eq_none prevS r.current.key hk]
  rfl

/-- Witness for C5: the amended statement applied to the concrete
merged row of `{A: 500}` against `{B: 300}`. -/
theorem C5_merge_witness :
    merged_row_A ∈ merge_summaries [row_A500] [row_B300] ∧
    merged_row_A.prev_revenue = none :=
  ⟨by decide,
    (C5_merge_amended [] [] [row_A500] [row_B300]).2.2.2 merged_row_A (by decide) (by decide)⟩

/-- C6 counterexample: a merged row whose current and previous
measures are both zero receives the `"New"` sentinel in both merge
implementations — not the claimed null/blank cell: the summary merge
divides by the NaN left by `replace(0, nan)` and the resulting NaN is
swallowed by `fillna('New')`, and the pivot branch selects `'New'`
whenever the previous value is 0. -/
theorem C6_both_zero_counterexample :
    (merge_summaries [row_A0] [row_A0]).map (fun r => r.revenue_change) = [CP.new] ∧
    (pivot_comparison [("A",0)] [("A",0)]).map (fun r => r.change) = [CP.new, CP.new] ∧
    CP.new ≠ CP.undefined := by
  refine ⟨?_, ?_, by simp⟩
  · simp [merge_summaries, List.find?, change_pct_merged, row_A0]
  · have hm : outer_merge_fill0 (pivot_with_margins [("A",(0:ℚ))])
        (pivot_with_margins [("A",(0:ℚ))]) = [("A", 0, 0), ("Total", 0, 0)] := by
      norm_num [pivot_with_margins, group_sum.eq_def, grand_total, outer_merge_fill0,
        lookupD, List.filter, List.find?]
      decide
    rw [pivot_comparison, hm]
    norm_num

/-- C6 (amended): for every merged comparison row whose current and
previous measures are both zero (or whose previous side is absent),
the change-percent cell is the `"New"` sentinel, in the summary merge
and in the pivot merge alike. -/
theorem C6_both_zero_amended :
    (∀ (curS prevS : List SummaryRow) (r : ComparisonRow),
      r ∈ merge_summaries curS prevS → r.current.revenue = 0 →
      (r.prev_revenue = none ∨ r.prev_revenue = some 0) → r.revenue_change = CP.new) ∧
    (∀ (cur prev : List (String × ℚ)) (pr : PivotRow),
      pr ∈ pivot_comparison cur prev → pr.cur = 0 → pr.prev = 0 → pr.change = CP.new) := by
  constructor
  · intro curS prevS r hr _ hp
    obtain ⟨-, -, hch⟩ := merge_summaries_shape curS prevS r hr
    rw [hch]
    rcases hp with hp | hp <;> rw [hp] <;> simp [change_pct_merged]
  · intro cur prev pr hpr _ hp
    rw [pivot_comparison] at hpr
    obtain ⟨r, hm, rfl⟩ := List.mem_map.mp hpr
    obtain ⟨k, c, p⟩ := r
    simp only at hp ⊢
    rw [hp]
    simp

/-- Witness for C6: the amended statement applied to the concrete
both-zero merged row of `{A: 0}` against `{A: 0}`. -/
theorem C6_both_zero_witness :
    merged_row_A0 ∈ merge_summaries [row_A0] [row_A0] ∧
    merged_row_A0.revenue_change = CP.new :=
  ⟨by decide,
    C6_both_zero_amended.1 [row_A0] [row_A0] merged_row_A0 (by decide) (by decide)
      (Or.inr (by decide))⟩

/-- C7 (confirmed): every merged comparison row whose previous
revenue is zero or absent and whose current revenue is positive gets
exactly the `"New"` sentinel — a `CP.new` value, never a numeric one,
and the total merge function never raises. -/
theorem C7_new_sentinel (curS prevS : List SummaryRow) (r : ComparisonRow)
    (hr : r ∈ merge_summaries curS prevS)
    (hp : r.prev_revenue = none ∨ r.prev_revenue = some 0)
    (hc : 0 < r.current.revenue) :
    r.revenue_change = CP.new := by
  obtain ⟨-, -, hch⟩ := merge_summaries_shape curS prevS r hr
  rw [hch]
  rcases hp with hp | hp <;> rw [hp] <;> simp [change_pct_merged]

/-- Witness for C7: current revenue 500 with no previous entry yields
the sentinel. -/
theorem C7_new_sentinel_witness :
    merged_row_A ∈ merge_summaries [row_A500] [] ∧
    merged_row_A.revenue_change = CP.new :=
  ⟨by decide,
    C7_new_sentinel [row_A500] [] merged_row_A (by decide) (Or.inl (by decide))
      (by norm_num [merged_row_A, row_A500])⟩

/-- C8 counterexample: six retailers with equal revenue each round to
16.7%, so the `Revenue %` column sums to 100.2 — outside the claimed
±0.1 tolerance. -/
theorem C8_pct_sum_counterexample :
    ¬ (|(((create_summary six_equal_rows).map (fun r => r.revenue_pct.getD 0)).sum - 100)|
        ≤ 1/10) := by
  have hr : round1 (50/3) = 167/10 := by rw [round1, round_half_even_eq]; norm_num
  have hg : group_rows six_equal_rows = six_equal_rows := by
    simp [six_equal_rows, group_rows.eq_def, List.filter]
  rw [six_equal_rows] at hg
  rw [six_equal_rows, create_summary, summary_total_revenue, summary_total_units, hg]
  norm_num [hr]
  rw [abs_of_nonneg (by norm_num : (0:ℚ) ≤ 1/5)]
  norm_num

/-- C8 (amended): for every row-set whose summary total revenue is
nonzero, the unrounded revenue shares sum to exactly 100, so the
rounded `Revenue %` values sum to 100 within ±0.05 per dimension key
— a tolerance of `n/20` for `n` keys rather than the fixed ±0.1. -/
theorem C8_pct_closure_amended (rows : List (String × ℚ × ℤ))
    (h : summary_total_revenue rows ≠ 0) :
    |(((create_summary rows).map (fun r => r.revenue_pct.getD 0)).sum - 100)|
      ≤ (create_summary rows).length * (1/20) := by
  have hL : summary_total_revenue rows = ((group_rows rows).map (fun r => r.2.1)).sum := rfl
  have hmap : (create_summary rows).map (fun r => r.revenue_pct.getD 0)
      = ((group_rows rows).map (fun r => r.2.1)).map
          (fun x => round1 (x / summary_total_revenue rows * 100)) := by
    rw [create_summary, List.map_map, List.map_map]
    congr 1
    funext r
    obtain ⟨k, v, u⟩ := r
    simp [Function.comp, h]
  have hlen : (create_summary rows).length
      = ((group_rows rows).map (fun r => r.2.1)).length := by
    simp [create_summary]
  rw [hmap, hlen, hL]
  exact round1_pct_closure _ (by rw [← hL]; exact h)

/-- Witness for C8: the amended bound applied to the six equal
retailers (sum 100.2, bound 6/20 = 0.3). -/
theorem C8_pct_closure_witness :
    summary_total_revenue six_equal_rows ≠ 0 ∧
    |(((create_summary six_equal_rows).map (fun r => r.revenue_pct.getD 0)).sum - 100)|
      ≤ (create_summary six_equal_rows).length * (1/20) := by
  have hg : group_rows six_equal_rows = six_equal_rows := by
    simp [six_equal_rows, group_rows.eq_def, List.filter]
  have h6 : summary_total_revenue six_equal_rows ≠ 0 := by
    rw [summary_total_revenue, hg]
    norm_num [six_equal_rows]
  exact ⟨h6, C8_pct_closure_amended six_equal_rows h6⟩

/-- C9 (confirmed): on every canonical 7-day range the flat 7-day
shift of `summary_generator.py` and the `len + 1` block rule of
`sales_analysis.py` agree, both producing `[s-7, s-1]`; in particular
`{2024-06-03, 2024-06-09}` resolves to `{2024-05-27, 2024-06-02}`
under both. -/
theorem C9_weekly_alias_equivalence :
    (∀ s : ℤ,
      SummaryGen.resolve_previous_days s (s + 6) = (s - 7, s - 1) ∧
      SalesAnalysis.resolve_previous_period_days s (s + 6) = (s - 7, s - 1)) ∧
    SummaryGen.resolve_previous_days (date_to_days 2024 6 3) (date_to_days 2024 6 9)
      = (date_to_days 2024 5 27, date_to_days 2024 6 2) ∧
    SalesAnalysis.resolve_previous_period_days (date_to_days 2024 6 3) (date_to_days 2024 6 9)
      = (date_to_days 2024 5 27, date_to_days 2024 6 2) := by
  refine ⟨fun s => ?_, by decide, by decide⟩
  unfold SummaryGen.resolve_previous_days SalesAnalysis.resolve_previous_period_days
  rw [if_pos (by omega), if_neg (by omega)]
  constructor <;> rw [Prod.mk.injEq] <;> constructor <;> omega

/-- C10 (confirmed): `clean_dimension_values` is the identity for any
dimension name other than `Color` and `Size`; for those two it maps
exactly that one column cell-wise by the token rule (the six
null-like tokens plus empty/whitespace-only strings become `N/A`,
every other value is kept) and leaves every other column untouched. -/
theorem C10_clean_dimension_values (data : List SalesRecord) (dimension : String) :
    (dimension ≠ "Color" → dimension ≠ "Size" → clean_dimension_values data dimension = data) ∧
    (clean_dimension_values data "Color"
      = data.map (fun r => { r with color := clean_value_spec r.color })) ∧
    (clean_dimension_values data "Size"
      = data.map (fun r => { r with size := clean_value_spec r.size })) := by
  refine ⟨fun h1 h2 => ?_, ?_, ?_⟩
  · rw [clean_dimension_values, if_neg h1, if_neg h2]
  · simp [clean_dimension_values, clean_value_eq_spec]
  · simp [clean_dimension_values, clean_value_eq_spec]

/-- Witness for C10: cleaning along the `Retailer` dimension leaves a
concrete table unchanged. -/
theorem C10_clean_dimension_values_witness :
    clean_dimension_values [sample_record] "Retailer" = [sample_record] :=
  (C10_clean_dimension_values [sample_record] "Retailer").1 (by decide) (by decide)
